import Mathlib

/-!
Verification model of the NDB synchronization engine
(`pyroute2/ndb/main.py`): the per-source event pump (`Source.start`),
the event queue and dispatcher loop (`NDB.__dbm__`), the handler
registry, the object factory (`Factory.__getitem__`), the convergence
wait protocol (`NDB.wait`), `NDB.connect_source` and `NDB.close`.

Python objects are embedded shallowly: payload items, control-signal
exception classes and source lifecycle states become inductive types;
the pump thread body becomes a function from its inputs (provider
reads, connection attempt outcomes) to the list of observable actions
it performs; the dispatcher's per-item work becomes state-transition
functions; `wait` becomes a function over an explicit list of incoming
events.  Interleaving of the pump thread and the dispatcher thread is
modelled by a trace of queue operations constrained by FIFO-queue
semantics.
-/

namespace NdbModel

/-- Identifier of one event source (node name or UUID); the `target`
field of every envelope. -/
abbrev Target := String

/-- A netlink message as seen by the pump loop in `Source.start`: for
the pump's control flow only the header error code matters
(`msg[0]['header']['error']` and its `.code`, main.py lines 507-509);
`none` models a falsy `error` field. -/
structure NlMsg where
  errorCode : Option Int
  deriving DecidableEq

/-- The sentinel exception classes used as control events
(main.py lines 186-207), plus `generic` standing for any other
exception instance enqueued as an event. -/
inductive ExcKind
  | syncStart
  | schemaFlush
  | markFailed
  | dbmExit
  | shutdownAll
  | invalidate
  | generic
  deriving DecidableEq

/-- One payload item of an event envelope: an ordinary netlink
message, a `threading.Event` one-shot signal object (identified by a
number), or an exception instance used as a control event. -/
inductive Item
  | msg (m : NlMsg)
  | sig (id : Nat)
  | exc (k : ExcKind)
  deriving DecidableEq

/-- Source lifecycle states (`Source.state`). -/
inductive SrcState
  | init
  | connecting
  | loading
  | running
  | stopped
  | failed
  deriving DecidableEq

/-- Observable steps of the source pump thread `t` defined inside
`Source.start` (main.py lines 468-533). `put tgt payload` is
`self.evq.put((tgt, payload))`; `barrierWait id` is `sync.wait()` on
the one-shot barrier; `sleepPause d` is `self.shutdown.wait(d)`;
`ret` is a `return` from the thread body; `raiseTypeError` is the
re-raise at line 520 that kills the pump thread. -/
inductive Action
  | setState (s : SrcState)
  | closePrev
  | bindStream
  | put (tgt : Target) (payload : List Item)
  | setStarted
  | clearShutdown
  | barrierWait (id : Nat)
  | sleepPause (d : Nat)
  | raiseTypeError
  | ret
  deriving DecidableEq

/-- One result of `tuple(self.nl.get())` in the pump loop: either the
call raised (`exn`, making `msg = None`), or it returned a nonempty
message tuple with first element `first` and tail `rest`. -/
inductive ProviderRead
  | exn
  | ok (first : NlMsg) (rest : List NlMsg)
  deriving DecidableEq

/-- The 104-check on a received message tuple's first element:
`msg[0]['header']['error'] and msg[0]['header']['error'].code == 104`. -/
def msgStops (m : NlMsg) : Bool :=
  match m.errorCode with
  | some c => c == 104
  | none => false

/-- `msg is None or msg[0]['header']['error'] and
msg[0]['header']['error'].code == 104` (main.py lines 507-509). -/
def readStops : ProviderRead → Bool
  | ProviderRead.exn => true
  | ProviderRead.ok m _ => msgStops m

/-- The stop sequence of the pump loop (main.py lines 510-517): set
state `stopped`, enqueue a one-shot barrier signal for this target,
block on it until the dispatcher signals it, then return from the
thread body. -/
def stopSeq (tgt : Target) (bid : Nat) : List Action :=
  [Action.setState SrcState.stopped,
   Action.put tgt [Item.sig bid],
   Action.barrierWait bid,
   Action.ret]

/-- The inner `while True` pump loop (main.py lines 500-518) as a
function of the successive provider reads: a read that stops the pump
triggers the stop sequence; otherwise the message tuple is enqueued
and the loop continues.  An exhausted read list models a pump still
blocked in `self.nl.get()`. -/
def innerLoop (tgt : Target) (bid : Nat) : List ProviderRead → List Action
  | [] => []
  | r :: rest =>
    if readStops r then stopSeq tgt bid
    else
      match r with
      | ProviderRead.ok m ms =>
          Action.put tgt ((m :: ms).map Item.msg) :: innerLoop tgt bid rest
      | ProviderRead.exn => []

/-- The four initial snapshots pulled from the provider
(`get_links`, `get_addr`, `get_neighbours`, `get_routes`). -/
structure Snapshots where
  links : List NlMsg
  addrs : List NlMsg
  neighs : List NlMsg
  routes : List NlMsg
  deriving DecidableEq

/-- The connect-and-load phase of one pump iteration (main.py lines
477-499 up to the state transition to `running`): state `connecting`,
obtain the handle, state `loading`, bind in async-cache mode, enqueue
the schema-flush control signal and the four snapshots as separate
envelopes, set the started signal, clear the shutdown flag, state
`running`. -/
def loadActs (tgt : Target) (snap : Snapshots) : List Action :=
  [Action.setState SrcState.connecting,
   Action.setState SrcState.loading,
   Action.bindStream,
   Action.put tgt [Item.exc ExcKind.schemaFlush],
   Action.put tgt (snap.links.map Item.msg),
   Action.put tgt (snap.addrs.map Item.msg),
   Action.put tgt (snap.neighs.map Item.msg),
   Action.put tgt (snap.routes.map Item.msg),
   Action.setStarted,
   Action.clearShutdown,
   Action.setState SrcState.running]

/-- `if self.event is not None: self.evq.put((self.target, (self.event, )))`
(main.py lines 498-499): the optional ready signal, enqueued as a
one-shot signal payload item. -/
def readyActs (ev : Option Nat) (tgt : Target) : List Action :=
  match ev with
  | some e => [Action.put tgt [Item.sig e]]
  | none => []

/-- Outcome class of one iteration of the outer `while True` loop of
the pump: the handle type is unsupported (`TypeError`, main.py line
483); or connect/load raised some other exception (main.py line 521),
with `shutdownDuringPause` telling whether the shutdown flag was set
while sleeping before restart; or connect/load succeeded and the pump
entered the streaming loop with the given reads. -/
inductive AttemptSpec
  | fatalType
  | loadError (shutdownDuringPause : Bool)
  | stream (reads : List ProviderRead)
  deriving DecidableEq

/-- Actions of the body of one outer-loop iteration (the `try` block,
main.py lines 476-518, plus the `except Exception` handler lines
521-525 up to the persistence decision).  A `loadError` is modelled as
an exception raised during bind/load, after the transition to
`loading`; the handler then sets the started signal, sets state
`failed` and enqueues the mark-failed control signal. -/
def attemptActs (tgt : Target) (snap : Snapshots) (ev : Option Nat)
    (bid : Nat) : AttemptSpec → List Action
  | AttemptSpec.fatalType =>
      [Action.setState SrcState.connecting, Action.raiseTypeError]
  | AttemptSpec.loadError _ =>
      [Action.setState SrcState.connecting,
       Action.setState SrcState.loading,
       Action.setStarted,
       Action.setState SrcState.failed,
       Action.put tgt [Item.exc ExcKind.markFailed]]
  | AttemptSpec.stream reads =>
      loadActs tgt snap ++ readyActs ev tgt ++ innerLoop tgt bid reads

/-- `SOURCE_FAIL_PAUSE` (main.py line 183). -/
def SOURCE_FAIL_PAUSE : Nat := 5

/-- The outer `while True` loop of the pump thread (main.py lines
469-533) over the successive connection attempts.  `hasNl` tells
whether a provider handle from a previous iteration exists (then step
1 closes it first).  A `fatalType` attempt re-raises the `TypeError`
out of the thread body (`except TypeError: raise`) and never retries;
a `stream` attempt either returns through the stop sequence or stays
blocked reading; a `loadError` attempt sleeps on the shutdown flag for
`SOURCE_FAIL_PAUSE` and restarts only when the source is persistent
and shutdown was not requested. -/
def pumpRun (tgt : Target) (snap : Snapshots) (ev : Option Nat) (bid : Nat)
    (persistent : Bool) (hasNl : Bool) : List AttemptSpec → List Action
  | [] => []
  | a :: rest =>
    (if hasNl then [Action.closePrev] else []) ++
    attemptActs tgt snap ev bid a ++
    (match a with
     | AttemptSpec.fatalType => []
     | AttemptSpec.stream _ => []
     | AttemptSpec.loadError sd =>
        if persistent then
          Action.sleepPause SOURCE_FAIL_PAUSE ::
            (if sd then [Action.ret]
             else pumpRun tgt snap ev bid persistent true rest)
        else [Action.ret])

/-- The puts that `innerLoop` performs for a list of non-stopping
reads. -/
def putsOf (tgt : Target) : List ProviderRead → List Action
  | [] => []
  | ProviderRead.exn :: rest => putsOf tgt rest
  | ProviderRead.ok m ms :: rest =>
      Action.put tgt ((m :: ms).map Item.msg) :: putsOf tgt rest

/-- The last `setState` recorded in an action list: the source state
left behind once the actions have run. -/
def lastSetState (l : List Action) : Option SrcState :=
  l.foldl (fun acc a =>
    match a with
    | Action.setState s => some s
    | _ => acc) none

/-- Recognize the `setStarted` action. -/
def isStartedAct : Action → Bool
  | Action.setStarted => true
  | _ => false

/-- Recognize a `put` action. -/
def isPutAct : Action → Bool
  | Action.put _ _ => true
  | _ => false

/-- The puts an action list performs before the started signal is
set. -/
def putsBeforeStarted (l : List Action) : List Action :=
  (l.takeWhile (fun a => !isStartedAct a)).filter isPutAct

/-!  Queue-trace model.  The event queue is a single FIFO channel; a
trace interleaves `enq m` steps of the pump thread and `deq m` steps
of the dispatcher, with messages identified by numbers. -/

/-- One step of the queue trace: message `m` is enqueued by a pump, or
dequeued (and applied) by the dispatcher. -/
inductive TraceEv
  | enq (m : Nat)
  | deq (m : Nat)
  deriving DecidableEq

/-- Position of the first occurrence of an event in a trace. -/
def evPos (tr : List TraceEv) (e : TraceEv) : Option Nat :=
  tr.findIdx? (fun x => x == e)

/-- `a` occurs strictly before `b` in the trace. -/
def seqBefore (tr : List TraceEv) (a b : TraceEv) : Prop :=
  ∃ ia ib, evPos tr a = some ia ∧ evPos tr b = some ib ∧ ia < ib

/-!  Concrete dispatcher state model: the effect of the built-in
handlers of `NDB.__dbm__` (main.py lines 847-909) on one payload
item. -/

/-- Dispatcher-side state touched by the built-in handlers: which
one-shot signal objects have been set, which targets were flushed or
marked failed, the sync-start countdown, the ready gate, the
shutdown-all broadcast, whether the loop returned, and counters for
logged errors and data events handed to the schema handlers. -/
structure DbmState where
  signalled : List Nat
  flushed : List Target
  marked : List Target
  countdown : Int
  dbmReady : Bool
  shutdownAll : Bool
  exited : Bool
  loggedErrors : Nat
  dataHandled : Nat
  deriving DecidableEq

/-- Dispatch of one payload item through the built-in event map and
the surrounding `except` clauses (main.py lines 847-904):
a `threading.Event` payload is set; `SchemaFlush` flushes the target's
rows; `MarkFailed` marks them; `SyncStart` decrements the countdown
and opens the ready gate at zero; a `ShutdownException` reaches the
default handler, is re-raised and caught, setting every source's
shutdown flag; a `DBMExitException` likewise makes the loop return;
an `InvalidateHandlerException` event is re-raised and swallowed by
the invalidation clause; any other exception event is re-raised,
caught by the bare `except` and logged; an ordinary message goes to
the schema's permanent handlers. -/
def applyItem (tgt : Target) (it : Item) (st : DbmState) : DbmState :=
  match it with
  | Item.sig i => { st with signalled := i :: st.signalled }
  | Item.msg _ => { st with dataHandled := st.dataHandled + 1 }
  | Item.exc ExcKind.schemaFlush => { st with flushed := tgt :: st.flushed }
  | Item.exc ExcKind.markFailed => { st with marked := tgt :: st.marked }
  | Item.exc ExcKind.syncStart =>
      { st with countdown := st.countdown - 1,
                dbmReady := st.dbmReady || (st.countdown - 1 == 0) }
  | Item.exc ExcKind.shutdownAll => { st with shutdownAll := true }
  | Item.exc ExcKind.dbmExit => { st with exited := true }
  | Item.exc ExcKind.invalidate => st
  | Item.exc ExcKind.generic =>
      { st with loggedErrors := st.loggedErrors + 1 }

/-- Recognize the exit-dispatcher control event. -/
def isExitItem : Item → Bool
  | Item.exc ExcKind.dbmExit => true
  | _ => false

/-- Processing of one dequeued envelope's payload items in order; a
`DBMExitException` makes the loop return immediately, leaving the
remaining items unprocessed. -/
def applyEnvelope (tgt : Target) : List Item → DbmState → DbmState
  | [], st => st
  | it :: rest, st =>
    let st2 := applyItem tgt it st
    if st2.exited then st2 else applyEnvelope tgt rest st2

/-!  Abstract handler-outcome model of the dispatch step, for
reasoning about arbitrary registered handlers (schema handlers and
weak object handlers are external code): each handler invocation
either returns, or raises one of the three control exceptions, or
raises some other exception, or logs a warning. -/

/-- What one handler invocation does. -/
inductive HOutcome
  | ok
  | invalidate
  | shutdown
  | exitDbm
  | failure
  | warned
  deriving DecidableEq

/-- Net effect of running a handler list on one item. -/
structure StepRes where
  exited : Bool
  removed : Nat
  logged : Nat
  warnedCount : Nat
  shutdownAll : Bool
  deriving DecidableEq

/-- The `for handler in tuple(handlers)` loop with its `except`
clauses (main.py lines 888-904): an `InvalidateHandlerException`
removes the handler and continues; a `ShutdownException` broadcasts
shutdown and continues; a `DBMExitException` returns from the loop;
any other exception is logged and the next handler runs. -/
def runHandlers : List HOutcome → StepRes
  | [] => { exited := false, removed := 0, logged := 0,
            warnedCount := 0, shutdownAll := false }
  | HOutcome.exitDbm :: _ =>
      { exited := true, removed := 0, logged := 0,
        warnedCount := 0, shutdownAll := false }
  | HOutcome.ok :: rest => runHandlers rest
  | HOutcome.invalidate :: rest =>
      let r := runHandlers rest
      { r with removed := r.removed + 1 }
  | HOutcome.shutdown :: rest =>
      let r := runHandlers rest
      { r with shutdownAll := true }
  | HOutcome.failure :: rest =>
      let r := runHandlers rest
      { r with logged := r.logged + 1 }
  | HOutcome.warned :: rest =>
      let r := runHandlers rest
      { r with warnedCount := r.warnedCount + 1 }

/-- The outcome of `raise event` inside `default_handler` for each
exception class, as seen through the loop's `except` clauses. -/
def raiseOutcome : ExcKind → HOutcome
  | ExcKind.invalidate => HOutcome.invalidate
  | ExcKind.shutdownAll => HOutcome.shutdown
  | ExcKind.dbmExit => HOutcome.exitDbm
  | ExcKind.syncStart => HOutcome.failure
  | ExcKind.schemaFlush => HOutcome.failure
  | ExcKind.markFailed => HOutcome.failure
  | ExcKind.generic => HOutcome.failure

/-- Is the payload item itself an exception instance? -/
def isExceptionItem : Item → Bool
  | Item.exc _ => true
  | _ => false

/-- `default_handler` (main.py lines 847-850): re-raise the event if
it is an exception instance, log a warning otherwise. -/
def defaultOutcome : Item → HOutcome
  | Item.exc k => raiseOutcome k
  | _ => HOutcome.warned

/-- One item's dispatch: `event_map.get(event.__class__,
[default_handler, ])` followed by the handler loop.  `registered` is
`some outs` when the item's class has a handler list (with the given
invocation outcomes), `none` when the default handler is used. -/
def stepItem (registered : Option (List HOutcome)) (it : Item) : StepRes :=
  runHandlers (registered.getD [defaultOutcome it])

/-!  `NDB.connect_source` (main.py lines 802-843). -/

/-- Kind of the `nl_prime` value held by a `Source`: a `NetlinkMixin`
instance, a class (type) to construct from, or anything else (which
the pump rejects with `TypeError`, main.py line 483). -/
inductive Prime
  | handle
  | ctor
  | bad
  deriving DecidableEq

/-- The pump's handle-acquisition step (main.py lines 478-483) decides
the shape of the connection attempt: a supported prime enters the
load/stream phase, an unsupported one raises `TypeError`. -/
def primeAttempt (p : Prime) (reads : List ProviderRead) : AttemptSpec :=
  match p with
  | Prime.bad => AttemptSpec.fatalType
  | _ => AttemptSpec.stream reads

/-- Kind of the `source` argument of `connect_source`: a
`NetlinkMixin` instance, a spec dict carrying a `class` entry, a
`Source` instance, or anything else. -/
inductive SourceSpecArg
  | nlHandle
  | dict (cls : Prime) (persistent : Bool)
  | srcInstance
  | other
  deriving DecidableEq

/-- Errors surfacing to the caller of `connect_source`. -/
inductive ConnectErr
  | typeError
  deriving DecidableEq

/-- `NDB.connect_source` as seen by its caller (main.py lines
822-843).  A `NetlinkMixin` instance or a spec dict builds a `Source`
and calls `start()`, which only spawns the pump thread, so the call
returns successfully even when the dict's `class` entry is an
unsupported handle (the `TypeError` is raised later, inside the pump
thread).  A `Source` instance stores the `Source` class itself (line
833) and `Source.start()` then raises `TypeError` inside the `try`,
which cleans up and re-raises.  Any other argument raises `TypeError`
at line 835, likewise cleaned up and re-raised. -/
def connectSource : SourceSpecArg → Except ConnectErr Unit
  | SourceSpecArg.nlHandle => Except.ok ()
  | SourceSpecArg.dict _ _ => Except.ok ()
  | SourceSpecArg.srcInstance => Except.error ConnectErr.typeError
  | SourceSpecArg.other => Except.error ConnectErr.typeError

/-!  `NDB.wait` (main.py lines 657-742). -/

/-- Modelled from the spec: `schema.classes` (the external Schema
contract) maps each view name to its message class; modelled as an
injective tagging of the name. -/
def classOf (event : String) : String := "cls:" ++ event

/-- Modelled from the spec: `msg.name2nla` (external message class)
maps a field name to its normalized NLA name; modelled as an injective
tagging. -/
def name2nla (k : String) : String := "NLA:" ++ k

/-- An incoming event message as used by the match step of `wait`:
its class and its raw (`msg.get`) and normalized (`msg.get_attr`)
field representations. -/
structure WMsg where
  cls : String
  raw : List (String × String)
  attrs : List (String × String)
  deriving DecidableEq

/-- `msg.get(key)`. -/
def wmGet (m : WMsg) (k : String) : Option String := m.raw.lookup k

/-- `msg.get_attr(name)`. -/
def wmGetAttr (m : WMsg) (k : String) : Option String := m.attrs.lookup k

/-- One entry of the `wait_for` list (main.py lines 692-695): the
spec key, its message class and the field-match dict. -/
structure WCond where
  event : String
  evClass : String
  obj : List (String × String)
  deriving DecidableEq

/-- `obj.get('target', 'localhost')`. -/
def condTarget (obj : List (String × String)) : String :=
  (obj.lookup "target").getD "localhost"

/-- One field of the match step (main.py lines 726-731): the loop
breaks when the key is `target` and the value differs from the
envelope's target, or when the value is in neither the raw nor the
normalized representation of the message; the field passes
otherwise.  Note that a `target` key equal to the envelope's target
still falls through to the representation test. -/
def fieldMatches (tgt : String) (m : WMsg) (kv : String × String) : Bool :=
  if kv.1 == "target" && kv.2 != tgt then false
  else wmGet m kv.1 == some kv.2 || wmGetAttr m (name2nla kv.1) == some kv.2

/-- The whole match step for one open condition against one received
message (main.py lines 723-733): class equality, then every field of
the dict must pass. -/
def condMatches (tgt : String) (m : WMsg) (c : WCond) : Bool :=
  c.evClass == m.cls && c.obj.all (fieldMatches tgt m)

/-- Follows the spec's words, for comparison with `fieldMatches`: the
`target` field compared literally against the envelope's target, every
other field against the raw or normalized representation. -/
def fieldMatchesSpec (tgt : String) (m : WMsg) (kv : String × String) : Bool :=
  if kv.1 == "target" then kv.2 == tgt
  else wmGet m kv.1 == some kv.2 || wmGetAttr m (name2nla kv.1) == some kv.2

/-- Follows the spec's words: the match step with the literal
`target` comparison. -/
def condMatchesSpec (tgt : String) (m : WMsg) (c : WCond) : Bool :=
  c.evClass == m.cls && c.obj.all (fieldMatchesSpec tgt m)

/-- Ways `wait` can fail to return normally: `self.sources[target]`
raised `KeyError`; the source's state is not `running`
(`RuntimeError`); or the modelled event input ran out with conditions
still open (the real call would keep blocking). -/
inductive WaitErr
  | keyError
  | notRunning
  | stuck
  deriving DecidableEq

/-- `check_db` (main.py lines 698-708): walk the open conditions in
order; raise if a condition's target has no source or a source not in
`running`; drop every condition whose direct store lookup succeeds.
`store ev obj` tells whether `getattr(self, ev)[obj]` finds a row. -/
def checkDb (sources : List (String × SrcState))
    (store : String → List (String × String) → Bool) :
    List WCond → Except WaitErr (List WCond)
  | [] => Except.ok []
  | c :: rest =>
    match sources.lookup (condTarget c.obj) with
    | none => Except.error WaitErr.keyError
    | some s =>
      if s = SrcState.running then
        if store c.event c.obj then checkDb sources store rest
        else (checkDb sources store rest).map (fun l => c :: l)
      else Except.error WaitErr.notRunning

/-- The `while wait_for` loop (main.py lines 714-733): each iteration
pulls from the side queue (`none` models a `queue.Empty` timeout), the
`finally` clause re-runs `check_db`, and a pulled message removes
every open condition it matches. -/
def waitLoop (sources : List (String × SrcState))
    (store : String → List (String × String) → Bool) :
    List (Option (String × WMsg)) → List WCond → Except WaitErr Unit
  | _, [] => Except.ok ()
  | [], _ :: _ => Except.error WaitErr.stuck
  | none :: evs, l =>
    match checkDb sources store l with
    | Except.error e => Except.error e
    | Except.ok l2 => waitLoop sources store evs l2
  | some (tgt, m) :: evs, l =>
    match checkDb sources store l with
    | Except.error e => Except.error e
    | Except.ok l2 =>
      waitLoop sources store evs (l2.filter (fun c => !condMatches tgt m c))

/-- Build the `wait_for` list from the spec argument (main.py lines
692-695). -/
def buildConds (spec : List (String × List (List (String × String)))) :
    List WCond :=
  spec.foldr (fun p acc =>
    (p.2.map (fun o => WCond.mk p.1 (classOf p.1) o)) ++ acc) []

/-- `NDB.wait` (main.py lines 657-742): register one temporary handler
per spec key, build `wait_for`, run the immediate `check_db`, then the
event loop; unregister the temporary handlers only after the open list
has been emptied.  Returns the call's outcome together with the final
list of event classes that still carry the temporary handler. -/
def ndbWait (sources : List (String × SrcState))
    (store : String → List (String × String) → Bool)
    (spec : List (String × List (List (String × String))))
    (events : List (Option (String × WMsg))) :
    Except WaitErr Unit × List String :=
  let reg := spec.map (fun p => classOf p.1)
  match checkDb sources store (buildConds spec) with
  | Except.error e => (Except.error e, reg)
  | Except.ok l =>
    match waitLoop sources store events l with
    | Except.error e => (Except.error e, reg)
    | Except.ok _ => (Except.ok (), [])

/-!  `Factory.__getitem__` weak-handler registration (main.py lines
239-274), `NDB.register_handler` (lines 646-649) and the periodic
sweep of `_rtnl_objects` (lines 905-909).  Proxy objects are
identified by numbers; a liveness predicate stands for the weak
references resolving to a live referent. -/

/-- The handler registry and the tracked weak-reference set. -/
structure ObjReg where
  rtnl : List Nat
  handlers : List (String × List (Nat × String))
  deriving DecidableEq

/-- `NDB.register_handler` (main.py lines 646-649): create the entry
on first use, append the handler at the end of the kind's list. -/
def registerHandler (ev : String) (h : Nat × String)
    (hs : List (String × List (Nat × String))) :
    List (String × List (Nat × String)) :=
  match hs with
  | [] => [(ev, [h])]
  | (e, l) :: rest =>
    if e == ev then (e, l ++ [h]) :: rest
    else (e, l) :: registerHandler ev h rest

/-- `Factory.__getitem__` (main.py lines 239-274): construct the proxy
`pid`, track its weak reference in `_rtnl_objects`, and register one
weak handler per `(event, fname)` pair of the proxy's event map. -/
def factoryGet (classEvents : List (String × String)) (pid : Nat)
    (st : ObjReg) : ObjReg :=
  { rtnl := pid :: st.rtnl,
    handlers := classEvents.foldl
      (fun hs ef => registerHandler ef.1 (pid, ef.2) hs) st.handlers }

/-- Construct one proxy per id in order. -/
def registerMany (classEvents : List (String × String)) (pids : List Nat)
    (st : ObjReg) : ObjReg :=
  pids.foldl (fun s p => factoryGet classEvents p s) st

/-- The sweep body (main.py lines 907-909): drop every tracked weak
reference whose referent is dead. -/
def sweepDead (alive : Nat → Bool) (st : ObjReg) : ObjReg :=
  { st with rtnl := st.rtnl.filter alive }

/-- The periodic-sweep step at the end of an envelope (main.py lines
905-909): sweep only when the configured GC interval has elapsed. -/
def gcStep (now gctime gcTimeout : Nat) (alive : Nat → Bool)
    (st : ObjReg) : ObjReg :=
  if gcTimeout < now - gctime then sweepDead alive st else st

/-- The handler list registered for a kind. -/
def handlersFor (ev : String) (st : ObjReg) : List (Nat × String) :=
  (st.handlers.lookup ev).getD []

/-- Number of handlers registered for a kind whose weak referent is
alive. -/
def liveHandlerCount (ev : String) (alive : Nat → Bool) (st : ObjReg) : Nat :=
  (handlersFor ev st).countP (fun h => alive h.1)

/-!  `NDB.close` (main.py lines 744-764). -/

/-- State of the engine as `close` sees it: whether the atexit hook is
still registered, whether `self.schema` is set (it is never reset by
`close`), how many unconsumed envelopes sit in the bounded event
queue, and whether the dispatcher thread is still alive. -/
structure CloseState where
  atexitRegistered : Bool
  schemaSet : Bool
  queuedPuts : Nat
  dbmAlive : Bool
  deriving DecidableEq

/-- The only way the close path can fail to make progress: a put on a
full queue that nobody drains blocks forever. -/
inductive CloseErr
  | wouldBlock
  deriving DecidableEq

/-- `queue.Queue(maxsize=100)` (main.py line 579). -/
def EVQ_MAXSIZE : Nat := 100

/-- One `put` on the bounded event queue during `close`: while the
dispatcher is alive it drains the envelope; afterwards the envelope
stays queued, and a put on a full queue would block forever. -/
def evqPut (st : CloseState) : Except CloseErr CloseState :=
  if st.dbmAlive then Except.ok st
  else if st.queuedPuts < EVQ_MAXSIZE then
    Except.ok { st with queuedPuts := st.queuedPuts + 1 }
  else Except.error CloseErr.wouldBlock

/-- `NDB.close` (main.py lines 744-764): unregister the atexit hook;
if `self.schema` is set, put the `ShutdownException` envelope, close
every source (their threads have exited or now exit; `th.join()`
returns), put the `DBMExitException` envelope, join the dispatcher
thread, then `schema.commit()` and `schema.close()`.  Modelled from
the spec: `Schema.commit` and `Schema.close` (pyroute2.ndb.dbschema,
not under src/) are plain calls of the external Schema contract and
are modelled as always succeeding.  `self.schema` stays set, so a
second call runs the same sequence again. -/
def ndbClose (st : CloseState) : Except CloseErr CloseState :=
  let st1 : CloseState := { st with atexitRegistered := false }
  if st1.schemaSet then
    match evqPut st1 with
    | Except.error e => Except.error e
    | Except.ok st2 =>
      match evqPut st2 with
      | Except.error e => Except.error e
      | Except.ok st3 => Except.ok { st3 with dbmAlive := false }
  else Except.ok st1

/-- A fresh dispatcher state: nothing signalled, flushed or marked, a
sync-start countdown of 2, all gates closed. -/
def dbmInit : DbmState :=
  { signalled := [], flushed := [], marked := [], countdown := 2,
    dbmReady := false, shutdownAll := false, exited := false,
    loggedErrors := 0, dataHandled := 0 }

end NdbModel

namespace NdbModel

/-- C2: on every connection attempt of a source, after entering the
`loading` state and binding the provider in streaming mode, the pump
enqueues onto the shared event queue, in exactly this order and as
separate envelopes all carrying the source's target: the schema-flush
control signal, then the links snapshot, the addresses snapshot, the
neighbours snapshot and the routes snapshot; only then is the started
signal set and the state set to `running`. -/
theorem C2_initial_load_order (tgt : Target) (snap : Snapshots)
    (ev : Option Nat) (bid : Nat) (reads : List ProviderRead)
    (persistent : Bool) :
    putsBeforeStarted
        (pumpRun tgt snap ev bid persistent false [AttemptSpec.stream reads]) =
      [Action.put tgt [Item.exc ExcKind.schemaFlush],
       Action.put tgt (snap.links.map Item.msg),
       Action.put tgt (snap.addrs.map Item.msg),
       Action.put tgt (snap.neighs.map Item.msg),
       Action.put tgt (snap.routes.map Item.msg)]
    ∧ attemptActs tgt snap ev bid (AttemptSpec.stream reads) =
        [Action.setState SrcState.connecting,
         Action.setState SrcState.loading,
         Action.bindStream,
         Action.put tgt [Item.exc ExcKind.schemaFlush],
         Action.put tgt (snap.links.map Item.msg),
         Action.put tgt (snap.addrs.map Item.msg),
         Action.put tgt (snap.neighs.map Item.msg),
         Action.put tgt (snap.routes.map Item.msg),
         Action.setStarted,
         Action.clearShutdown,
         Action.setState SrcState.running] ++
          readyActs ev tgt ++ innerLoop tgt bid reads :=
  ⟨rfl, rfl⟩

/-- C3: when connect/load raises a non-fatal exception the pump sets
the started signal, sets state `failed` and enqueues the mark-failed
control signal; a persistent source then sleeps on the shutdown flag
for `SOURCE_FAIL_PAUSE` (5) time units, returns if shutdown was
requested in the interim and otherwise restarts from step 1 (closing
the previous handle first); a non-persistent source returns
permanently and its state remains `failed`. -/
theorem C3_failure_retry_policy (tgt : Target) (snap : Snapshots)
    (ev : Option Nat) (bid : Nat) (sd : Bool) (rest : List AttemptSpec) :
    pumpRun tgt snap ev bid false false (AttemptSpec.loadError sd :: rest) =
        attemptActs tgt snap ev bid (AttemptSpec.loadError sd) ++ [Action.ret]
    ∧ lastSetState
        (pumpRun tgt snap ev bid false false
          (AttemptSpec.loadError sd :: rest)) = some SrcState.failed
    ∧ pumpRun tgt snap ev bid true false (AttemptSpec.loadError true :: rest) =
        attemptActs tgt snap ev bid (AttemptSpec.loadError true) ++
          [Action.sleepPause SOURCE_FAIL_PAUSE, Action.ret]
    ∧ pumpRun tgt snap ev bid true false (AttemptSpec.loadError false :: rest) =
        attemptActs tgt snap ev bid (AttemptSpec.loadError false) ++
          Action.sleepPause SOURCE_FAIL_PAUSE ::
            pumpRun tgt snap ev bid true true rest
    ∧ attemptActs tgt snap ev bid (AttemptSpec.loadError sd) =
        [Action.setState SrcState.connecting,
         Action.setState SrcState.loading,
         Action.setStarted,
         Action.setState SrcState.failed,
         Action.put tgt [Item.exc ExcKind.markFailed]]
    ∧ SOURCE_FAIL_PAUSE = 5
    ∧ (∀ a rest2, (pumpRun tgt snap ev bid true true (a :: rest2)).head? =
        some Action.closePrev) :=
  ⟨rfl, rfl, rfl, rfl, rfl, rfl, fun _ _ => rfl⟩

/-- C7 counterexample: at the concrete input of a spec dict whose
`class` entry is an unsupported handle, `connect_source` returns
successfully — the fatal `TypeError` is raised later, inside the pump
thread, and never surfaces to the caller of `connect_source`,
contradicting the claim. -/
theorem C7_counterexample :
    connectSource (SourceSpecArg.dict Prime.bad true) = Except.ok ()
    ∧ pumpRun "remote" (Snapshots.mk [] [] [] []) none 0 true false
        [primeAttempt Prime.bad []] =
      [Action.setState SrcState.connecting, Action.raiseTypeError] :=
  ⟨rfl, rfl⟩

/-- C7 (amended): an unsupported provider handle type makes the pump
raise `TypeError`, which is fatal, never retried even for a persistent
source, and propagates out of the pump thread terminating it; it does
not surface to the caller of `connect_source`, which has already
returned successfully.  Separately, `connect_source` does raise
`TypeError` to its own caller on a source argument of an unsupported
type (the check at line 835) and likewise when passed a `Source`
instance (line 833 stores the `Source` class itself, so the following
`start()` call raises `TypeError` inside the `try` and is
re-raised). -/
theorem C7_fatal_type_not_retried (tgt : Target) (snap : Snapshots)
    (ev : Option Nat) (bid : Nat) (persistent : Bool)
    (rest : List AttemptSpec) (reads : List ProviderRead) :
    pumpRun tgt snap ev bid persistent false
        (primeAttempt Prime.bad reads :: rest) =
      [Action.setState SrcState.connecting, Action.raiseTypeError]
    ∧ connectSource (SourceSpecArg.dict Prime.bad persistent) = Except.ok ()
    ∧ connectSource SourceSpecArg.other = Except.error ConnectErr.typeError
    ∧ connectSource SourceSpecArg.srcInstance =
        Except.error ConnectErr.typeError :=
  ⟨rfl, rfl, rfl, rfl⟩

end NdbModel

namespace NdbModel

/-- Occurring strictly before is transitive in a trace. -/
theorem seqBefore_trans {tr : List TraceEv} {a b c : TraceEv}
    (h1 : seqBefore tr a b) (h2 : seqBefore tr b c) : seqBefore tr a c := by
  obtain ⟨ia, ib, ha, hb, hab⟩ := h1
  obtain ⟨ib2, ic, hb2, hc, hbc⟩ := h2
  refine ⟨ia, ic, ha, hc, ?_⟩
  rw [hb] at hb2
  cases Option.some.inj hb2
  omega

/-- Splitting the inner pump loop at the first stopping read: the
pump forwards every earlier message tuple and then runs the stop
sequence, enqueueing nothing further. -/
theorem innerLoop_split (tgt : Target) (bid : Nat) (r : ProviderRead)
    (rest goods : List ProviderRead)
    (hgoods : ∀ g ∈ goods, readStops g = false)
    (hstop : readStops r = true) :
    innerLoop tgt bid (goods ++ r :: rest) =
      putsOf tgt goods ++ stopSeq tgt bid := by
  induction goods with
  | nil => simp [innerLoop, putsOf, hstop]
  | cons g gs ih =>
    have hg : readStops g = false := hgoods g (by simp)
    have hgs : ∀ x ∈ gs, readStops x = false :=
      fun x hx => hgoods x (by simp [hx])
    cases g with
    | exn => simp [readStops] at hg
    | ok m ms =>
      simp only [List.cons_append, innerLoop, hg, Bool.false_eq_true,
        if_false, putsOf]
      simp [ih hgs]

/-- C1: per-target ordering across reconnects.  First conjunct: in any
queue trace where (FIFO) a message enqueued before the barrier is
dequeued before the barrier, (causality) the post-reconnect message is
enqueued before it is dequeued, the pre-disconnect message is enqueued
before the barrier, and (the pump blocking on the barrier) the
post-reconnect message is enqueued only after the dispatcher dequeued
the barrier, the pre-disconnect message is applied before the
post-reconnect message.  Second conjunct: on a provider error or an
error-code-104 message the pump forwards nothing further; it sets
state `stopped`, enqueues the one-shot barrier signal for its target,
blocks on it and only then returns. -/
theorem C1_barrier_ordering (tr : List TraceEv) (pre bar post : Nat)
    (hfifo : seqBefore tr (TraceEv.enq pre) (TraceEv.enq bar) →
      seqBefore tr (TraceEv.deq pre) (TraceEv.deq bar))
    (hpost : seqBefore tr (TraceEv.enq post) (TraceEv.deq post))
    (hpre : seqBefore tr (TraceEv.enq pre) (TraceEv.enq bar))
    (hblock : seqBefore tr (TraceEv.deq bar) (TraceEv.enq post))
    (tgt : Target) (bid : Nat) (goods : List ProviderRead)
    (r : ProviderRead) (rest : List ProviderRead)
    (hgoods : ∀ g ∈ goods, readStops g = false)
    (hstop : readStops r = true) :
    seqBefore tr (TraceEv.deq pre) (TraceEv.deq post)
    ∧ innerLoop tgt bid (goods ++ r :: rest) =
        putsOf tgt goods ++
          [Action.setState SrcState.stopped, Action.put tgt [Item.sig bid],
           Action.barrierWait bid, Action.ret] :=
  ⟨seqBefore_trans (seqBefore_trans (hfifo hpre) hblock) hpost,
   innerLoop_split tgt bid r rest goods hgoods hstop⟩

/-- Witness for C1 on a concrete six-step trace (enqueue and dequeue
of a pre-disconnect message 0, the barrier 1, a post-reconnect message
2) and a pump whose provider read fails immediately. -/
theorem C1_witness :
    seqBefore [TraceEv.enq 0, TraceEv.enq 1, TraceEv.deq 0, TraceEv.deq 1,
               TraceEv.enq 2, TraceEv.deq 2] (TraceEv.deq 0) (TraceEv.deq 2)
    ∧ innerLoop "localhost" 7 ([] ++ ProviderRead.exn :: []) =
        putsOf "localhost" [] ++
          [Action.setState SrcState.stopped,
           Action.put "localhost" [Item.sig 7],
           Action.barrierWait 7, Action.ret] :=
  C1_barrier_ordering
    [TraceEv.enq 0, TraceEv.enq 1, TraceEv.deq 0, TraceEv.deq 1,
     TraceEv.enq 2, TraceEv.deq 2] 0 1 2
    (fun _ => ⟨2, 3, rfl, rfl, by omega⟩)
    ⟨4, 5, rfl, rfl, by omega⟩
    ⟨0, 1, rfl, rfl, by omega⟩
    ⟨3, 4, rfl, rfl, by omega⟩
    "localhost" 7 [] ProviderRead.exn []
    (by intro g hg; simp at hg) rfl

/-- Dispatching an item that is not the exit-dispatcher control event
leaves the loop's exit flag unchanged. -/
theorem applyItem_exited (tgt : Target) (it : Item) (st : DbmState)
    (h : isExitItem it = false) :
    (applyItem tgt it st).exited = st.exited := by
  cases it with
  | msg m => rfl
  | sig i => rfl
  | exc k => cases k <;> first | rfl | simp [isExitItem] at h

/-- Only a one-shot signal item adds to the signalled set. -/
theorem applyItem_signalled (tgt : Target) (it : Item) (st : DbmState)
    (i : Nat) :
    i ∈ (applyItem tgt it st).signalled ↔
      Item.sig i = it ∨ i ∈ st.signalled := by
  cases it with
  | sig j => simp [applyItem]
  | msg m => simp [applyItem]
  | exc k => cases k <;> simp [applyItem]

/-- C4: the dispatcher loop never terminates because of a handler
failure or an unsupported event.  A handler list exits the loop only
when some invocation raises the exit-dispatcher control exception; a
handler raising any non-control exception is logged and the remaining
handlers still run; an item of a kind with no registered handlers goes
to the default handler, which logs a warning when the item is not an
exception instance and re-raises the item when it is (a generic
exception is then caught by the loop and logged, and dispatching
continues with the next item). -/
theorem C4_dispatcher_robustness :
    (∀ outs : List HOutcome, HOutcome.exitDbm ∉ outs →
        (runHandlers outs).exited = false)
    ∧ (∀ rest : List HOutcome, runHandlers (HOutcome.failure :: rest) =
        { runHandlers rest with logged := (runHandlers rest).logged + 1 })
    ∧ (∀ it : Item, isExceptionItem it = false →
        stepItem none it =
          { exited := false, removed := 0, logged := 0,
            warnedCount := 1, shutdownAll := false })
    ∧ (∀ k : ExcKind, stepItem none (Item.exc k) =
        runHandlers [raiseOutcome k])
    ∧ stepItem none (Item.exc ExcKind.generic) =
        { exited := false, removed := 0, logged := 1,
          warnedCount := 0, shutdownAll := false }
    ∧ (∀ (tgt : Target) (st : DbmState) (i : Nat), st.exited = false →
        (applyEnvelope tgt [Item.exc ExcKind.generic, Item.sig i]
            st).signalled = i :: st.signalled) := by
  refine ⟨?_, fun _ => rfl, ?_, fun _ => rfl, rfl, ?_⟩
  · intro outs h
    induction outs with
    | nil => rfl
    | cons o rest ih =>
      have hne : o ≠ HOutcome.exitDbm :=
        fun he => h (he ▸ List.mem_cons_self o rest)
      have hrest : HOutcome.exitDbm ∉ rest :=
        fun hx => h (List.mem_cons_of_mem o hx)
      cases o with
      | exitDbm => exact absurd rfl hne
      | ok => simpa [runHandlers] using ih hrest
      | invalidate => simpa [runHandlers] using ih hrest
      | shutdown => simpa [runHandlers] using ih hrest
      | failure => simpa [runHandlers] using ih hrest
      | warned => simpa [runHandlers] using ih hrest
  · intro it h
    cases it with
    | msg m => rfl
    | sig i => rfl
    | exc k => simp [isExceptionItem] at h
  · intro tgt st i h
    simp [applyEnvelope, applyItem, h]

/-- Witness for C4: a failing handler followed by a healthy one does
not exit the loop; a signal item with no handlers is only warned
about; a generic exception item is logged and the following signal
item is still applied. -/
theorem C4_witness :
    (runHandlers [HOutcome.failure, HOutcome.ok]).exited = false
    ∧ stepItem none (Item.sig 3) =
        { exited := false, removed := 0, logged := 0,
          warnedCount := 1, shutdownAll := false }
    ∧ (applyEnvelope "localhost" [Item.exc ExcKind.generic, Item.sig 4]
        dbmInit).signalled = [4] :=
  ⟨C4_dispatcher_robustness.1 [HOutcome.failure, HOutcome.ok] (by decide),
   C4_dispatcher_robustness.2.2.1 (Item.sig 3) rfl,
   C4_dispatcher_robustness.2.2.2.2.2 "localhost" dbmInit 4 rfl⟩

/-- C10: the dispatcher's built-in event map keys the type of a
one-shot signal object to a handler that sets it, so every signal
payload item is set exactly when it is dequeued and applied (as long
as the loop has not exited); the pump's reconnect barrier and the
optional per-source ready signal passed to `connect_source` are both
enqueued as exactly such signal items, so one mechanism implements
both. -/
theorem C10_signal_mechanism :
    (∀ (tgt : Target) (i : Nat) (st : DbmState),
        applyItem tgt (Item.sig i) st =
          { st with signalled := i :: st.signalled })
    ∧ (∀ (tgt : Target) (st : DbmState) (items : List Item) (i : Nat),
        st.exited = false → (∀ it ∈ items, isExitItem it = false) →
        (i ∈ (applyEnvelope tgt items st).signalled ↔
          Item.sig i ∈ items ∨ i ∈ st.signalled))
    ∧ (∀ (tgt : Target) (bid : Nat), stopSeq tgt bid =
        [Action.setState SrcState.stopped, Action.put tgt [Item.sig bid],
         Action.barrierWait bid, Action.ret])
    ∧ (∀ (tgt : Target) (e : Nat), readyActs (some e) tgt =
        [Action.put tgt [Item.sig e]]) := by
  refine ⟨fun _ _ _ => rfl, ?_, fun _ _ => rfl, fun _ _ => rfl⟩
  intro tgt st items i
  induction items generalizing st with
  | nil =>
    intro _ _
    simp [applyEnvelope]
  | cons it rest ih =>
    intro hex hits
    have h1 : isExitItem it = false := hits it (by simp)
    have hrest : ∀ x ∈ rest, isExitItem x = false :=
      fun x hx => hits x (by simp [hx])
    have hst2 : (applyItem tgt it st).exited = false := by
      rw [applyItem_exited tgt it st h1]
      exact hex
    simp only [applyEnvelope, hst2, Bool.false_eq_true, if_false]
    rw [ih (applyItem tgt it st) hst2 hrest,
      applyItem_signalled tgt it st i]
    simp only [List.mem_cons]
    tauto

/-- Witness for C10: a dequeued envelope holding signal 5 gets signal
5 set. -/
theorem C10_witness :
    applyItem "localhost" (Item.sig 5) dbmInit =
      { dbmInit with signalled := [5] }
    ∧ (5 ∈ (applyEnvelope "localhost" [Item.sig 5] dbmInit).signalled ↔
        Item.sig 5 ∈ [Item.sig 5] ∨ 5 ∈ dbmInit.signalled) :=
  ⟨C10_signal_mechanism.1 "localhost" 5 dbmInit,
   C10_signal_mechanism.2.1 "localhost" dbmInit [Item.sig 5] 5 rfl
     (by intro it h; simp at h; simp [h, isExitItem])⟩

end NdbModel

namespace NdbModel

/-- `check_db` raises whenever some open condition's target names a
missing or non-running source. -/
theorem checkDb_error_of_bad (sources : List (String × SrcState))
    (store : String → List (String × String) → Bool) (l : List WCond)
    (c : WCond) (hc : c ∈ l)
    (hbad : sources.lookup (condTarget c.obj) ≠ some SrcState.running) :
    ∃ e, checkDb sources store l = Except.error e := by
  induction l with
  | nil => simp at hc
  | cons c0 rest ih =>
    by_cases h0 : sources.lookup (condTarget c0.obj) = some SrcState.running
    · have hmem : c ∈ rest := by
        rcases List.mem_cons.mp hc with he | hm
        · exact absurd (by rw [he]; exact h0) hbad
        · exact hm
      obtain ⟨e, he⟩ := ih hmem
      refine ⟨e, ?_⟩
      cases hs : store c0.event c0.obj <;>
        simp [checkDb, h0, hs, he, Except.map]
    · simp only [checkDb]
      cases hl : sources.lookup (condTarget c0.obj) with
      | none => exact ⟨WaitErr.keyError, rfl⟩
      | some s =>
        have hns : ¬ s = SrcState.running := fun h => h0 (by rw [hl, h])
        exact ⟨WaitErr.notRunning, by simp [hns]⟩

/-- A condition surviving a successful `check_db` pass either had its
direct store lookup succeed (and was removed) or is still open. -/
theorem checkDb_ok_mem (sources : List (String × SrcState))
    (store : String → List (String × String) → Bool) (l : List WCond) :
    ∀ l2, checkDb sources store l = Except.ok l2 →
      ∀ c ∈ l, store c.event c.obj = true ∨ c ∈ l2 := by
  induction l with
  | nil => intro l2 _ c hc; simp at hc
  | cons c0 rest ih =>
    intro l2 h c hc
    simp only [checkDb] at h
    split at h
    · exact absurd h (by simp)
    · split at h
      · split at h
        · rcases List.mem_cons.mp hc with he | hm
          · rename_i hs0 _
            left
            rw [he]
            assumption
          · exact ih l2 h c hm
        · cases hrest : checkDb sources store rest with
          | error e =>
            rw [hrest] at h
            exact absurd h (by simp [Except.map])
          | ok l3 =>
            rw [hrest] at h
            simp only [Except.map, Except.ok.injEq] at h
            rcases List.mem_cons.mp hc with he | hm
            · right
              rw [← h, he]
              exact List.mem_cons_self c0 l3
            · rcases ih l3 hrest c hm with hs | hmem
              · exact Or.inl hs
              · right
                rw [← h]
                exact List.mem_cons_of_mem c0 hmem
      · exact absurd h (by simp)

/-- If the wait loop terminates normally, every condition it started
with was satisfied: its direct store lookup succeeds, or some received
event matches it. -/
theorem waitLoop_ok (sources : List (String × SrcState))
    (store : String → List (String × String) → Bool) :
    ∀ (events : List (Option (String × WMsg))) (l : List WCond),
      waitLoop sources store events l = Except.ok () →
      ∀ c ∈ l, store c.event c.obj = true ∨
        ∃ tgt m, some (tgt, m) ∈ events ∧ condMatches tgt m c = true := by
  intro events
  induction events with
  | nil =>
    intro l h c hc
    cases l with
    | nil => simp at hc
    | cons a b => exact absurd h (by simp [waitLoop])
  | cons e evs ih =>
    intro l h c hc
    cases l with
    | nil => simp at hc
    | cons c0 crest =>
      cases e with
      | none =>
        simp only [waitLoop] at h
        cases hdb : checkDb sources store (c0 :: crest) with
        | error e2 =>
          rw [hdb] at h
          exact absurd h (by simp)
        | ok l2 =>
          rw [hdb] at h
          rcases checkDb_ok_mem sources store (c0 :: crest) l2 hdb c hc with
            hs | hm
          · exact Or.inl hs
          · rcases ih l2 h c hm with hs | ⟨tgt, m, hmem, hmatch⟩
            · exact Or.inl hs
            · exact Or.inr ⟨tgt, m, List.mem_cons_of_mem _ hmem, hmatch⟩
      | some tm =>
        obtain ⟨tgt0, m0⟩ := tm
        simp only [waitLoop] at h
        cases hdb : checkDb sources store (c0 :: crest) with
        | error e2 =>
          rw [hdb] at h
          exact absurd h (by simp)
        | ok l2 =>
          rw [hdb] at h
          rcases checkDb_ok_mem sources store (c0 :: crest) l2 hdb c hc with
            hs | hm
          · exact Or.inl hs
          · by_cases hmt : condMatches tgt0 m0 c = true
            · exact Or.inr ⟨tgt0, m0, List.mem_cons_self _ _, hmt⟩
            · have hmem2 : c ∈ l2.filter (fun x => !condMatches tgt0 m0 x) := by
                rw [List.mem_filter]
                refine ⟨hm, ?_⟩
                simp [Bool.not_eq_true] at hmt
                simp [hmt]
              rcases ih _ h c hmem2 with hs | ⟨tgt, m, hmem, hmatch⟩
              · exact Or.inl hs
              · exact Or.inr ⟨tgt, m, List.mem_cons_of_mem _ hmem, hmatch⟩

/-- C5 counterexample: at a concrete input the claim's reading of the
match step is wrong.  A received event of the right class from target
`localhost` should, per the claim ("target compared literally"),
satisfy the condition `[(target, localhost)]`; under the code's match
step it does not (the target value is also looked up among the
message's raw/normalized representations, where it is absent), and the
wait call with that event as its only input never removes the
condition. -/
theorem C5_counterexample :
    condMatchesSpec "localhost" (WMsg.mk (classOf "interfaces") [] [])
        (WCond.mk "interfaces" (classOf "interfaces")
          [( "target", "localhost")]) = true
    ∧ condMatches "localhost" (WMsg.mk (classOf "interfaces") [] [])
        (WCond.mk "interfaces" (classOf "interfaces")
          [( "target", "localhost")]) = false
    ∧ (ndbWait [( "localhost", SrcState.running)] (fun _ _ => false)
        [( "interfaces", [[( "target", "localhost")]])]
        [some ("localhost", WMsg.mk (classOf "interfaces") [] [])]).1 =
      Except.error WaitErr.stuck :=
  ⟨by decide, by decide, rfl⟩

/-- C5 (amended): if at a direct-store check some condition's target
(default `localhost`) names a missing source or one whose state is not
`running`, `wait` raises; otherwise `wait` returns normally only once
every listed condition has been observed satisfied, each
independently, either by a direct store lookup succeeding or by a
received event matching it field-by-field — where a `target` field
must both equal the envelope's target literally and appear among the
event's raw or normalized representations, and every other field must
appear among the event's raw or normalized representations. -/
theorem C5_wait_semantics (sources : List (String × SrcState))
    (store : String → List (String × String) → Bool)
    (spec : List (String × List (List (String × String))))
    (events : List (Option (String × WMsg))) :
    ((∃ c ∈ buildConds spec,
        sources.lookup (condTarget c.obj) ≠ some SrcState.running) →
      ∃ e, (ndbWait sources store spec events).1 = Except.error e)
    ∧ ((ndbWait sources store spec events).1 = Except.ok () →
      ∀ c ∈ buildConds spec, store c.event c.obj = true ∨
        ∃ tgt m, some (tgt, m) ∈ events ∧ condMatches tgt m c = true) := by
  constructor
  · rintro ⟨c, hc, hbad⟩
    obtain ⟨e, he⟩ :=
      checkDb_error_of_bad sources store (buildConds spec) c hc hbad
    exact ⟨e, by simp [ndbWait, he]⟩
  · intro h c hc
    simp only [ndbWait] at h
    split at h
    · simp at h
    · rename_i l hdb
      split at h
      · simp at h
      · rename_i u hwl
        rcases checkDb_ok_mem sources store (buildConds spec) l hdb c hc with
          hs | hm
        · exact Or.inl hs
        · cases u
          exact waitLoop_ok sources store events l hwl c hm

/-- Witness for C5: a failed source makes `wait` raise at once; a
store-satisfied condition lets `wait` return, and the satisfaction
disjunction holds for it. -/
theorem C5_witness :
    (∃ e, (ndbWait [( "t1", SrcState.failed)] (fun _ _ => false)
        [( "interfaces", [[( "target", "t1")]])] []).1 = Except.error e)
    ∧ ((fun (_ : String) (_ : List (String × String)) => true)
          "interfaces" [( "ifname", "eth0")] = true ∨
        ∃ tgt m, some (tgt, m) ∈ ([] : List (Option (String × WMsg))) ∧
          condMatches tgt m (WCond.mk "interfaces" (classOf "interfaces")
            [( "ifname", "eth0")]) = true) :=
  ⟨(C5_wait_semantics [( "t1", SrcState.failed)] (fun _ _ => false)
      [( "interfaces", [[( "target", "t1")]])] []).1
    ⟨WCond.mk "interfaces" (classOf "interfaces") [( "target", "t1")],
      by decide, by decide⟩,
   (C5_wait_semantics [( "localhost", SrcState.running)] (fun _ _ => true)
      [( "interfaces", [[( "ifname", "eth0")]])] []).2 rfl
    (WCond.mk "interfaces" (classOf "interfaces") [( "ifname", "eth0")])
    (by decide)⟩

/-- C9: `wait` is not atomic on its error path — the temporary
per-event-kind handlers are registered before the first direct-store
check, and on any error outcome the unregister step (which runs only
after the open-condition list is emptied) is never reached, so the
registry keeps one temporary handler per listed event kind. -/
theorem C9_wait_error_leaves_handlers (sources : List (String × SrcState))
    (store : String → List (String × String) → Bool)
    (spec : List (String × List (List (String × String))))
    (events : List (Option (String × WMsg))) (e : WaitErr)
    (h : (ndbWait sources store spec events).1 = Except.error e) :
    (ndbWait sources store spec events).2 =
      spec.map (fun p => classOf p.1) := by
  simp only [ndbWait] at h ⊢
  split at h
  · rename_i e2 hdb
    simp [hdb]
  · rename_i l hdb
    split at h
    · rename_i e2 hwl
      simp [hdb, hwl]
    · simp at h

/-- Witness for C9: the concrete failed call of the C5 witness leaves
its temporary handler for the `interfaces` event class registered. -/
theorem C9_witness :
    (ndbWait [( "t1", SrcState.failed)] (fun _ _ => false)
      [( "interfaces", [[( "target", "t1")]])] []).2 =
      [( "interfaces", [[( "target", "t1")]])].map
        (fun p => classOf p.1) :=
  C9_wait_error_leaves_handlers [( "t1", SrcState.failed)]
    (fun _ _ => false) [( "interfaces", [[( "target", "t1")]])] []
    WaitErr.notRunning rfl

end NdbModel

namespace NdbModel

/-- Folding cons over a list reverses it onto the accumulator. -/
theorem foldl_cons_rev :
    ∀ (pids : List Nat) (r : List Nat),
      pids.foldl (fun acc p => p :: acc) r = pids.reverse ++ r := by
  intro pids
  induction pids with
  | nil => intro r; rfl
  | cons p ps ih =>
    intro r
    simp only [List.foldl, List.reverse_cons, List.append_assoc,
      List.singleton_append]
    exact ih (p :: r)

/-- In a duplicate-free list, filtering for a member keeps exactly it. -/
theorem filter_eq_single {l : List Nat} {k : Nat} (hn : l.Nodup)
    (hm : k ∈ l) : l.filter (fun i => i == k) = [k] := by
  induction l with
  | nil => simp at hm
  | cons a rest ih =>
    rcases List.mem_cons.mp hm with he | hmem
    · subst he
      have hnot : k ∉ rest := (List.nodup_cons.mp hn).1
      have hrest : rest.filter (fun i => i == k) = [] := by
        rw [List.filter_eq_nil_iff]
        intro x hx
        simp only [beq_iff_eq]
        exact fun hxk => hnot (hxk ▸ hx)
      simp [List.filter_cons, hrest]
    · have ha : ¬ (a == k) = true := by
        simp only [beq_iff_eq]
        intro he2
        exact (List.nodup_cons.mp hn).1 (he2 ▸ hmem)
      simp only [List.filter, ha]
      exact ih (List.nodup_cons.mp hn).2 hmem

/-- Registering proxies one by one for a single-event class appends
one weak handler per proxy to the kind's list and pushes each weak
reference onto the tracked set. -/
theorem registerMany_single (ev f : String) :
    ∀ (pids : List Nat) (r : List Nat) (hs : List (Nat × String)),
      registerMany [(ev, f)] pids (ObjReg.mk r [(ev, hs)]) =
        ObjReg.mk (pids.foldl (fun acc p => p :: acc) r)
          [(ev, hs ++ pids.map (fun p => (p, f)))] := by
  intro pids
  induction pids with
  | nil =>
    intro r hs
    simp [registerMany]
  | cons p ps ih =>
    intro r hs
    have hstep : factoryGet [(ev, f)] p (ObjReg.mk r [(ev, hs)]) =
        ObjReg.mk (p :: r) [(ev, hs ++ [(p, f)])] := by
      simp [factoryGet, registerHandler]
    have h1 : registerMany [(ev, f)] (p :: ps) (ObjReg.mk r [(ev, hs)]) =
        registerMany [(ev, f)] ps
          (factoryGet [(ev, f)] p (ObjReg.mk r [(ev, hs)])) := rfl
    rw [h1, hstep, ih]
    simp [List.foldl, List.append_assoc]

/-- C6: registering N weak handlers for N distinct proxy objects of
one kind, dropping the references to all but one proxy, and running a
periodic sweep once the GC interval has elapsed leaves exactly one
live handler registered for that kind, and the tracked
weak-reference set retains exactly the surviving proxy. -/
theorem C6_weak_handler_sweep (pids : List Nat) (keep : Nat)
    (ev f : String) (now gctime gcTimeout : Nat)
    (hn : pids.Nodup) (hk : keep ∈ pids)
    (ht : gcTimeout < now - gctime) :
    liveHandlerCount ev (fun i => i == keep)
        (gcStep now gctime gcTimeout (fun i => i == keep)
          (registerMany [(ev, f)] pids (ObjReg.mk [] []))) = 1
    ∧ (gcStep now gctime gcTimeout (fun i => i == keep)
        (registerMany [(ev, f)] pids (ObjReg.mk [] []))).rtnl = [keep] := by
  cases pids with
  | nil => simp at hk
  | cons p ps =>
    have hreg : registerMany [(ev, f)] (p :: ps) (ObjReg.mk [] []) =
        ObjReg.mk ((p :: ps).reverse)
          [(ev, (p :: ps).map (fun q => (q, f)))] := by
      have h1 : registerMany [(ev, f)] (p :: ps) (ObjReg.mk [] []) =
          registerMany [(ev, f)] ps (ObjReg.mk [p] [(ev, [(p, f)])]) := rfl
      rw [h1, registerMany_single]
      simp [foldl_cons_rev, List.reverse_cons]
    rw [hreg]
    have hsweep : gcStep now gctime gcTimeout (fun i => i == keep)
        (ObjReg.mk ((p :: ps).reverse)
          [(ev, (p :: ps).map (fun q => (q, f)))]) =
        ObjReg.mk (((p :: ps).reverse).filter (fun i => i == keep))
          [(ev, (p :: ps).map (fun q => (q, f)))] := by
      simp [gcStep, sweepDead, ht]
    rw [hsweep]
    constructor
    · simp only [liveHandlerCount, handlersFor, List.lookup,
        beq_self_eq_true, Option.getD_some]
      rw [List.countP_map]
      have : ((p :: ps).filter (fun i => i == keep)).length = 1 := by
        rw [filter_eq_single hn hk]
        rfl
      rw [← this, List.countP_eq_length_filter]
      rfl
    · exact filter_eq_single (List.nodup_reverse.mpr hn)
        (List.mem_reverse.mpr hk)

/-- Witness for C6: three proxies 0, 1, 2 registered for the
`interfaces` kind; only proxy 1 stays referenced; after the sweep one
live handler and one tracked reference remain. -/
theorem C6_witness :
    liveHandlerCount "interfaces" (fun i => i == 1)
        (gcStep 20 0 10 (fun i => i == 1)
          (registerMany [( "interfaces", "load")] [0, 1, 2]
            (ObjReg.mk [] []))) = 1
    ∧ (gcStep 20 0 10 (fun i => i == 1)
        (registerMany [( "interfaces", "load")] [0, 1, 2]
          (ObjReg.mk [] []))).rtnl = [1] :=
  C6_weak_handler_sweep [0, 1, 2] 1 "interfaces" "load" 20 0 10
    (by decide) (by decide) (by decide)

/-- C8: `close()` is idempotent: from any engine state whose event
queue has room for the four control envelopes of two close calls, a
first and a second `close()` both run to completion without raising
and without blocking, the atexit hook is unregistered, and the schema
reference survives (so the second call repeats the shutdown sequence
harmlessly).  The external `Schema.commit`/`Schema.close` calls are
modelled from the spec as always succeeding. -/
theorem C8_close_idempotent (st : CloseState)
    (hq : st.queuedPuts + 4 ≤ EVQ_MAXSIZE) :
    ∃ st1 st2, ndbClose st = Except.ok st1 ∧ ndbClose st1 = Except.ok st2
      ∧ st1.atexitRegistered = false ∧ st2.schemaSet = st.schemaSet := by
  obtain ⟨a, s, q, d⟩ := st
  simp only [EVQ_MAXSIZE] at hq
  cases s with
  | false =>
    exact ⟨CloseState.mk false false q d, CloseState.mk false false q d,
      by simp [ndbClose], by simp [ndbClose], rfl, rfl⟩
  | true =>
    have hq1 : q < 100 := by omega
    have hq2 : q + 1 < 100 := by omega
    have hq3 : q + 1 + 1 < 100 := by omega
    have hq4 : q + 1 + 1 + 1 < 100 := by omega
    cases d with
    | true =>
      refine ⟨CloseState.mk false true q false,
              CloseState.mk false true (q + 1 + 1) false, ?_, ?_, rfl, rfl⟩
      · simp [ndbClose, evqPut]
      · simp [ndbClose, evqPut, EVQ_MAXSIZE, hq1, hq2]
    | false =>
      refine ⟨CloseState.mk false true (q + 1 + 1) false,
              CloseState.mk false true (q + 1 + 1 + 1 + 1) false,
              ?_, ?_, rfl, rfl⟩
      · simp [ndbClose, evqPut, EVQ_MAXSIZE, hq1, hq2]
      · simp [ndbClose, evqPut, EVQ_MAXSIZE, hq3, hq4]

/-- Witness for C8: a freshly running engine (schema set, dispatcher
alive, empty queue) survives two consecutive `close()` calls. -/
theorem C8_witness :
    ∃ st1 st2, ndbClose (CloseState.mk true true 0 true) = Except.ok st1
      ∧ ndbClose st1 = Except.ok st2
      ∧ st1.atexitRegistered = false
      ∧ st2.schemaSet = (CloseState.mk true true 0 true).schemaSet :=
  C8_close_idempotent (CloseState.mk true true 0 true) (by decide)

end NdbModel
